import Mathlib

/-
Verification of the Web MIDI backend of the `midir` crate
(src/backend/webmidi/mod.rs), shallowly embedded in Lean 4.

Modelling conventions:
* `usize`/`u64`/bytes are `Nat`; the `f64` millisecond timestamp of a
  `MidiMessageEvent` is modelled as a `Nat` (only the ms → µs scaling by
  1000 matters here).
* The `HashMap<String, usize>` field `slot_lookup` is modelled as an
  association list `List (String × Nat)`; `found_one` only ever inserts a
  vacant key, so the list's length equals the map's size.
* Fallible operations return `Except`; an `Option` wrapped around a result
  models a possible Rust panic (out-of-bounds slice indexing, `unwrap` of
  `None`): `Option.none` is the panic.
* Side effects on the browser (registering/unregistering the
  `onmidimessage` handler) are modelled as explicit state on the
  connection value, and the delivery closure as a function from an event
  to the list of callback invocations it performs.
-/

namespace Midir

/-- Modelled from the spec: the `Ignore` filter (defined in lib.rs, which is
not under src/) is "a bitset over categories \x7bSysex, Time, ActiveSense\x7d";
`contains(flag)` is field projection on this record. -/
structure Ignore where
  sysex : Bool
  time : Bool
  activeSense : Bool
deriving DecidableEq, Repr

/-- `Ignore::None`: the empty filter, the default of `MidiInput::new`. -/
def Ignore.noFlags : Ignore := ⟨false, false, false⟩

/-- A web-midi port object: its backend identity string (`id()`) and its
optional display name (`name()`), the two observations the backend code
makes of a `web_sys::MidiPort`. -/
structure Port where
  id : String
  name : Option String
deriving DecidableEq, Repr

/-- `DeviceSet<T>` (mod.rs lines 27-30): bidirectional lookup of device
objects from indices and vice versa. -/
structure DeviceSet where
  slot_lookup : List (String × Nat)
  name_lookup : List Port
deriving DecidableEq, Repr

/-- `DeviceSet::new` (mod.rs lines 33-38). -/
def DeviceSet.new : DeviceSet := ⟨[], []⟩

/-- `DeviceSet::found_one` (mod.rs lines 40-49): if the device's id is
vacant in `slot_lookup`, push the device onto `name_lookup` and record its
slot; otherwise do nothing. -/
def DeviceSet.found_one (s : DeviceSet) (device : Port) : DeviceSet :=
  match s.slot_lookup.lookup device.id with
  | some _ => s
  | Option.none =>
    { slot_lookup := s.slot_lookup ++ [(device.id, s.name_lookup.length)]
      name_lookup := s.name_lookup ++ [device] }

/-- `DeviceSet::found_map` (mod.rs lines 51-55): `found_one` on every value
of the map, in iteration order. -/
def DeviceSet.found_map (s : DeviceSet) (devices : List Port) : DeviceSet :=
  devices.foldl DeviceSet.found_one s

/-- `DeviceSet::list` (mod.rs lines 57-59). -/
def DeviceSet.list (s : DeviceSet) : List Port := s.name_lookup

/-- `DeviceSet::len` (mod.rs lines 61-63): the size of `slot_lookup`. -/
def DeviceSet.len (s : DeviceSet) : Nat := s.slot_lookup.length

/-- Modelled from the spec: `InitError` ("session construction failed",
spec §6); defined in errors.rs, which is not under src/. -/
inductive InitError where
  | initFailed
deriving DecidableEq, Repr

/-- Modelled from the spec: `PortInfoError::PortNumberOutOfRange`
(spec §6); defined in errors.rs, which is not under src/. -/
inductive PortInfoError where
  | portNumberOutOfRange
deriving DecidableEq, Repr

/-- Modelled from the spec: kinds of `ConnectError` (spec §6); defined in
errors.rs, which is not under src/. -/
inductive ConnectErrorKind where
  | portNumberOutOfRange
  | other
deriving DecidableEq, Repr

/-- Modelled from the spec: `ConnectError\x7b kind, recovered_session \x7d`
(spec §6) — it carries the error kind and the recovered session object,
nothing else; defined in errors.rs, which is not under src/.  This matches
the call sites in src/: `ConnectError::new(kind, self)`. -/
structure ConnectError (S : Type) where
  kind : ConnectErrorKind
  inner : S
deriving DecidableEq, Repr

/-- Modelled from the spec: `SendError::Other(reason)` (spec §6); defined
in errors.rs, which is not under src/. -/
inductive SendError where
  | other (reason : String)
deriving DecidableEq, Repr

/-- `MidiInput` (mod.rs lines 146-148): an unconnected input session holds
only the ignore filter. -/
structure MidiInput where
  ignore_flags : Ignore
deriving DecidableEq, Repr

/-- `MidiInput::new` (mod.rs lines 151-153): always `Ok`, with
`Ignore::None`. -/
def MidiInput.new (_client_name : String) : Except InitError MidiInput :=
  Except.ok { ignore_flags := Ignore.noFlags }

/-- `MidiInput::ignore` (mod.rs lines 155-157). -/
def MidiInput.ignore (m : MidiInput) (flags : Ignore) : MidiInput :=
  { m with ignore_flags := flags }

/-- `MidiInput::port_count` (mod.rs lines 159-165): the input set's `len()`
(after a refresh, which is `found_map` on the backend's current map and is
modelled separately). -/
def MidiInput.port_count (set : DeviceSet) : Nat := set.len

/-- `MidiInput::port_name` (mod.rs lines 167-174): out-of-range indices
error; otherwise the port's display name, falling back to its id.  The
outer `Option` models the panic of slice indexing (`Option.none` = panic,
unreachable while the `DeviceSet` invariant holds). -/
def MidiInput.port_name (set : DeviceSet) (port_number : Nat) :
    Option (Except PortInfoError String) :=
  if set.len ≤ port_number then some (Except.error PortInfoError.portNumberOutOfRange)
  else (set.list[port_number]?).map fun input => Except.ok (input.name.getD input.id)

/-- A `web_sys::MidiMessageEvent`: its timestamp in milliseconds (an `f64`
in the source, modelled as `Nat`) and its data bytes. -/
structure MidiMessageEvent where
  time_stamp : Nat
  data : List Nat
deriving DecidableEq, Repr

/-- The suppression condition of the delivery closure (mod.rs lines
197-201): the message is dropped iff its status byte is 0xF0 with Sysex
set, 0xF1 with Time set, 0xF8 with Time set, or 0xFE with ActiveSense
set. -/
def suppresses (flags : Ignore) (status : Nat) : Bool :=
  (status == 0xF0 && flags.sysex) ||
  (status == 0xF1 && flags.time) ||
  (status == 0xF8 && flags.time) ||
  (status == 0xFE && flags.activeSense)

/-- Modelled from the spec: the spec's own `should_suppress` contract
(§4.2) — "true iff status_byte is exactly one of the THREE recognized
system/real-time bytes (system-exclusive start, time-code-quarter-frame,
active-sensing — mapped 1:1 to the three filter categories) AND the
corresponding flag is set".  Kept for comparison against `suppresses`,
which is translated from the source. -/
def spec_should_suppress (flags : Ignore) (status : Nat) : Bool :=
  (status == 0xF0 && flags.sysex) ||
  (status == 0xF1 && flags.time) ||
  (status == 0xFE && flags.activeSense)

/-- One run of the delivery closure (mod.rs lines 193-205) on one event:
the list of callback invocations it performs, each a pair of the timestamp
in microseconds (`ms * 1000`) and the raw message bytes.  `Option.none`
models the panic of `buffer[0]` on an empty buffer. -/
def sinkRun (flags : Ignore) (event : MidiMessageEvent) :
    Option (List (Nat × List Nat)) :=
  match event.data with
  | [] => Option.none
  | status :: _ =>
    if suppresses flags status then some []
    else some [(event.time_stamp * 1000, event.data)]

/-- `MidiInputConnection<T>` (mod.rs lines 217-223): the connected input
session.  The registered `onmidimessage` closure is represented by
`handler_registered` together with `ignore_flags` (its captured filter);
`user_data` is the `Arc<Mutex<Option<T>>>` contents. -/
structure MidiInputConnection (T : Type) where
  ignore_flags : Ignore
  input : Port
  handler_registered : Bool
  user_data : Option T
deriving DecidableEq, Repr

/-- `MidiInput::connect` (mod.rs lines 176-214): out-of-range indices give
`ConnectError(PortNumberOutOfRange, self)` — the user data is consumed and
does not appear in the error; in range, the closure is registered on the
port and the data moved into the connection.  The outer `Option` models the
panic of slice indexing. -/
def MidiInput.connect {T : Type} (self : MidiInput) (set : DeviceSet)
    (port_number : Nat) (_port_name : String) (data : T) :
    Option (Except (ConnectError MidiInput) (MidiInputConnection T)) :=
  if set.len ≤ port_number then
    some (Except.error ⟨ConnectErrorKind.portNumberOutOfRange, self⟩)
  else
    (set.list[port_number]?).map fun input =>
      Except.ok { ignore_flags := self.ignore_flags
                  input := input
                  handler_registered := true
                  user_data := some data }

/-- Dispatch of one MIDI message event against a connection: if the
handler is still registered with the port, the delivery closure runs;
otherwise nothing is invoked. -/
def MidiInputConnection.dispatch {T : Type} (conn : MidiInputConnection T)
    (event : MidiMessageEvent) : Option (List (Nat × List Nat)) :=
  if conn.handler_registered then sinkRun conn.ignore_flags event else some []

/-- The state of the connection right after `input.set_onmidimessage(None)`
(mod.rs line 229) and before the user data is taken: the sink is
unregistered while the closure and context are still alive. -/
def MidiInputConnection.afterUnregister {T : Type} (conn : MidiInputConnection T) :
    MidiInputConnection T :=
  { conn with handler_registered := false }

/-- `MidiInputConnection::close` (mod.rs lines 226-237): unregister the
handler first, then take the user data and return it with a fresh
`MidiInput` carrying the same ignore flags.  `Option.none` models the
`unwrap` panic when the data is absent. -/
def MidiInputConnection.close {T : Type} (conn : MidiInputConnection T) :
    Option (MidiInput × T) :=
  let conn := conn.afterUnregister
  conn.user_data.map fun data => ({ ignore_flags := conn.ignore_flags }, data)

/-- `MidiOutput` (mod.rs lines 239-240): an unconnected output session has
no state. -/
structure MidiOutput where
deriving DecidableEq, Repr

/-- `MidiOutput::new` (mod.rs lines 243-245): always `Ok`. -/
def MidiOutput.new (_client_name : String) : Except InitError MidiOutput :=
  Except.ok {}

/-- `MidiOutput::port_count` (mod.rs lines 247-253). -/
def MidiOutput.port_count (set : DeviceSet) : Nat := set.len

/-- `MidiOutput::port_name` (mod.rs lines 255-262): same shape as the
input-side `port_name`. -/
def MidiOutput.port_name (set : DeviceSet) (port_number : Nat) :
    Option (Except PortInfoError String) :=
  if set.len ≤ port_number then some (Except.error PortInfoError.portNumberOutOfRange)
  else (set.list[port_number]?).map fun output => Except.ok (output.name.getD output.id)

/-- `MidiOutputConnection` (mod.rs lines 277-279). -/
structure MidiOutputConnection where
  output : Port
deriving DecidableEq, Repr

/-- `MidiOutput::connect` (mod.rs lines 264-274). -/
def MidiOutput.connect (self : MidiOutput) (set : DeviceSet)
    (port_number : Nat) (_port_name : String) :
    Option (Except (ConnectError MidiOutput) MidiOutputConnection) :=
  if set.len ≤ port_number then
    some (Except.error ⟨ConnectErrorKind.portNumberOutOfRange, self⟩)
  else
    (set.list[port_number]?).map fun output => Except.ok { output := output }

/-- The backend's write primitive (`web_sys::MidiOutput::send`), abstracted
as a predicate saying which byte sequences the platform accepts. -/
structure BackendWrite where
  accept : List Nat → Bool

/-- `MidiOutputConnection::send` (mod.rs lines 287-289): the bytes are
viewed verbatim (`Uint8Array::view(message)`) and passed to the backend's
write once; a platform rejection is mapped to
`SendError::Other("JavaScript exception")`.  The first component is the
observation of what was forwarded to the write primitive. -/
def MidiOutputConnection.send (_conn : MidiOutputConnection)
    (backend : BackendWrite) (message : List Nat) :
    List (List Nat) × Except SendError Unit :=
  ([message],
   if backend.accept message then Except.ok ()
   else Except.error (SendError.other "JavaScript exception"))

/-- The device sets reachable from `DeviceSet::new` by any sequence of
`found_one` / `found_map` calls. -/
inductive DeviceSet.Reachable : DeviceSet → Prop where
  | new : DeviceSet.Reachable DeviceSet.new
  | found_one {s : DeviceSet} (d : Port) :
      DeviceSet.Reachable s → DeviceSet.Reachable (s.found_one d)
  | found_map {s : DeviceSet} (ds : List Port) :
      DeviceSet.Reachable s → DeviceSet.Reachable (s.found_map ds)

/-- The `DeviceSet` bidirectionality invariant: the two lookups have equal
length and `slot_lookup` maps the identity of the i-th port to i. -/
def DeviceSet.Inv (s : DeviceSet) : Prop :=
  s.slot_lookup.length = s.name_lookup.length ∧
  ∀ i p, s.name_lookup[i]? = some p → s.slot_lookup.lookup p.id = some i

theorem lookup_append_of_some {l l₂ : List (String × Nat)} {k : String} {v : Nat}
    (h : l.lookup k = some v) : (l ++ l₂).lookup k = some v := by
  induction l with
  | nil => simp [List.lookup] at h
  | cons a l ih =>
    rw [List.cons_append]
    rw [List.lookup] at h ⊢
    cases hk : (k == a.1) with
    | true => rw [hk] at h; exact h
    | false => rw [hk] at h; exact ih h

theorem lookup_append_of_none {l l₂ : List (String × Nat)} {k : String}
    (h : l.lookup k = Option.none) : (l ++ l₂).lookup k = l₂.lookup k := by
  induction l with
  | nil => simp
  | cons a l ih =>
    rw [List.cons_append]
    rw [List.lookup] at h ⊢
    cases hk : (k == a.1) with
    | true => rw [hk] at h; exact absurd h (by simp)
    | false => rw [hk] at h; exact ih h

/-- `found_one` on an already-seen identity is the identity function. -/
theorem found_one_seen {s : DeviceSet} {d : Port} {i : Nat}
    (h : s.slot_lookup.lookup d.id = some i) : s.found_one d = s := by
  unfold DeviceSet.found_one
  rw [h]

/-- `found_one` on a fresh identity appends it at the next index. -/
theorem found_one_fresh {s : DeviceSet} {d : Port}
    (h : s.slot_lookup.lookup d.id = Option.none) :
    s.found_one d = { slot_lookup := s.slot_lookup ++ [(d.id, s.name_lookup.length)]
                      name_lookup := s.name_lookup ++ [d] } := by
  unfold DeviceSet.found_one
  rw [h]

/-- `found_one` preserves existing slot assignments. -/
theorem found_one_preserves_lookup {s : DeviceSet} (d : Port) {k : String} {i : Nat}
    (h : s.slot_lookup.lookup k = some i) :
    (s.found_one d).slot_lookup.lookup k = some i := by
  unfold DeviceSet.found_one
  cases hd : s.slot_lookup.lookup d.id with
  | some j => exact h
  | none => exact lookup_append_of_some h

/-- `found_one` only ever appends to `name_lookup`. -/
theorem found_one_name_lookup_grows (s : DeviceSet) (d : Port) :
    ∃ t, s.name_lookup ++ t = (s.found_one d).name_lookup := by
  unfold DeviceSet.found_one
  cases hd : s.slot_lookup.lookup d.id with
  | some j => exact ⟨[], by simp⟩
  | none => exact ⟨[d], rfl⟩

/-- `found_one` does not decrease `len`. -/
theorem found_one_len_mono (s : DeviceSet) (d : Port) :
    s.len ≤ (s.found_one d).len := by
  unfold DeviceSet.found_one DeviceSet.len
  cases hd : s.slot_lookup.lookup d.id with
  | some j => exact Nat.le_refl _
  | none => simp

/-- `found_map` preserves existing slot assignments. -/
theorem found_map_preserves_lookup {s : DeviceSet} (ds : List Port) {k : String} {i : Nat}
    (h : s.slot_lookup.lookup k = some i) :
    (s.found_map ds).slot_lookup.lookup k = some i := by
  induction ds generalizing s with
  | nil => exact h
  | cons d ds ih => exact ih (found_one_preserves_lookup d h)

/-- `found_map` only ever appends to `name_lookup`. -/
theorem found_map_name_lookup_grows (s : DeviceSet) (ds : List Port) :
    ∃ t, s.name_lookup ++ t = (s.found_map ds).name_lookup := by
  induction ds generalizing s with
  | nil => exact ⟨[], by simp [DeviceSet.found_map]⟩
  | cons d ds ih =>
    obtain ⟨t₁, h₁⟩ := found_one_name_lookup_grows s d
    obtain ⟨t₂, h₂⟩ := ih (s.found_one d)
    exact ⟨t₁ ++ t₂, by rw [← List.append_assoc, h₁]; exact h₂⟩

/-- `found_map` does not decrease `len`. -/
theorem found_map_len_mono (s : DeviceSet) (ds : List Port) :
    s.len ≤ (s.found_map ds).len := by
  induction ds generalizing s with
  | nil => exact Nat.le_refl _
  | cons d ds ih => exact Nat.le_trans (found_one_len_mono s d) (ih (s.found_one d))

/-- `DeviceSet.new` satisfies the bidirectionality invariant. -/
theorem Inv_new : DeviceSet.Inv DeviceSet.new := by
  constructor
  · rfl
  · intro i p hp
    simp [DeviceSet.new] at hp

/-- `found_one` preserves the bidirectionality invariant. -/
theorem Inv_found_one {s : DeviceSet} (d : Port) (h : s.Inv) :
    (s.found_one d).Inv := by
  obtain ⟨hlen, hmap⟩ := h
  cases hd : s.slot_lookup.lookup d.id with
  | some j => rw [found_one_seen hd]; exact ⟨hlen, hmap⟩
  | none =>
    rw [found_one_fresh hd]
    constructor
    · simp [hlen]
    · intro i p hp
      by_cases hi : i < s.name_lookup.length
      · rw [List.getElem?_append_left hi] at hp
        exact lookup_append_of_some (hmap i p hp)
      · rw [List.getElem?_append_right (Nat.le_of_not_lt hi)] at hp
        rcases hsub : i - s.name_lookup.length with _ | k
        · rw [hsub] at hp
          obtain rfl : d = p := by simpa using hp
          have hi' : i = s.name_lookup.length := by omega
          subst hi'
          rw [lookup_append_of_none hd]
          simp [List.lookup]
        · rw [hsub] at hp
          simp at hp

/-- `found_map` preserves the bidirectionality invariant. -/
theorem Inv_found_map {s : DeviceSet} (ds : List Port) (h : s.Inv) :
    (s.found_map ds).Inv := by
  induction ds generalizing s with
  | nil => exact h
  | cons d ds ih => exact ih (Inv_found_one d h)

/-- C1 counterexample.  The claim says the sink suppresses a message iff
its first byte is one of THREE bytes (0xF0, 0xF1, 0xFE) with the matching
flag set, and in particular that `[0xF8]` is suppressed when the
ActiveSense flag is set.  Both parts fail on the code: with only the Time
flag set the code suppresses status 0xF8 although the spec's
`should_suppress` passes it, and with only the ActiveSense flag set the
code DELIVERS the message `[0xF8]` (one invocation) although the claim
says it is suppressed. -/
theorem C1_counterexample :
    (suppresses ⟨false, true, false⟩ 0xF8 = true ∧
     spec_should_suppress ⟨false, true, false⟩ 0xF8 = false) ∧
    sinkRun ⟨false, false, true⟩ ⟨7, [0xF8]⟩ = some [(7000, [0xF8])] := by
  decide

/-- C1 (amended): the sink suppresses a message iff its first byte is one
of FOUR recognized bytes — 0xF0 with Sysex, 0xF1 with Time, 0xF8 with
Time, 0xFE with ActiveSense — and the corresponding flag is set; every
other first byte always passes.  In particular the message `[0xF8]` is
delivered iff the Time flag is unset (the ActiveSense flag is irrelevant
to it). -/
theorem C1_filter_amended (flags : Ignore) (status t : Nat) :
    (suppresses flags status = true ↔
      (status = 0xF0 ∧ flags.sysex = true) ∨
      (status = 0xF1 ∧ flags.time = true) ∨
      (status = 0xF8 ∧ flags.time = true) ∨
      (status = 0xFE ∧ flags.activeSense = true)) ∧
    sinkRun flags ⟨t, [0xF8]⟩ =
      some (if flags.time then [] else [(t * 1000, [0xF8])]) := by
  constructor
  · simp only [suppresses, Bool.or_eq_true, Bool.and_eq_true, beq_iff_eq]
    tauto
  · cases ht : flags.time <;> simp [sinkRun, suppresses, ht]

/-- C2 counterexample.  The claim says the user context is handed back
unchanged in the `Err` variant of `connect`.  It is not: the error value
carries only the kind and the session, and is the SAME value for two
different contexts (37 and 99), so the context cannot be recovered from
it — the code drops the context on the out-of-range path. -/
theorem C2_counterexample :
    MidiInput.connect ⟨Ignore.noFlags⟩ DeviceSet.new 0 "p" (37 : Nat) =
      some (Except.error ⟨ConnectErrorKind.portNumberOutOfRange, ⟨Ignore.noFlags⟩⟩) ∧
    MidiInput.connect ⟨Ignore.noFlags⟩ DeviceSet.new 0 "p" (99 : Nat) =
      some (Except.error ⟨ConnectErrorKind.portNumberOutOfRange, ⟨Ignore.noFlags⟩⟩) := by
  constructor <;> rfl

/-- C2 (amended): for every index ≥ the current port count, `port_name`
returns `PortInfoError::PortNumberOutOfRange` and `connect` returns an
error of kind `PortNumberOutOfRange` whose `Err` variant hands back the
session unchanged; the user context is consumed by `connect` and is NOT
returned in the error. -/
theorem C2_out_of_range {T : Type} (m : MidiInput) (set : DeviceSet) (n : Nat)
    (pn : String) (data : T) (h : set.len ≤ n) :
    MidiInput.port_name set n = some (Except.error PortInfoError.portNumberOutOfRange) ∧
    MidiInput.connect m set n pn data =
      some (Except.error ⟨ConnectErrorKind.portNumberOutOfRange, m⟩) := by
  constructor
  · unfold MidiInput.port_name; rw [if_pos h]
  · unfold MidiInput.connect; rw [if_pos h]

/-- Witness for C2 at index 3 on an empty device set. -/
theorem C2_witness :
    MidiInput.port_name DeviceSet.new 3 =
      some (Except.error PortInfoError.portNumberOutOfRange) ∧
    MidiInput.connect ⟨Ignore.noFlags⟩ DeviceSet.new 3 "p" (5 : Nat) =
      some (Except.error ⟨ConnectErrorKind.portNumberOutOfRange, ⟨Ignore.noFlags⟩⟩) :=
  C2_out_of_range ⟨Ignore.noFlags⟩ DeviceSet.new 3 "p" 5 (by decide)

/-- C5: for a message whose first byte is the sysex-start byte 0xF0, the
delivery closure performs no callback invocation when the Sysex flag is
set, and exactly one invocation — with the scaled timestamp and the raw
bytes — when it is clear. -/
theorem C5_sysex_filter (flags : Ignore) (event : MidiMessageEvent) (rest : List Nat)
    (h : event.data = 0xF0 :: rest) :
    (flags.sysex = true → sinkRun flags event = some []) ∧
    (flags.sysex = false →
      sinkRun flags event = some [(event.time_stamp * 1000, event.data)]) := by
  cases event with
  | mk t dat =>
    simp only [MidiMessageEvent.data] at h
    subst h
    constructor
    · intro hs; simp [sinkRun, suppresses, hs]
    · intro hs; simp [sinkRun, suppresses, hs]

/-- Witness for C5 on the message [0xF0, 1, 0xF7] at timestamp 3 ms. -/
theorem C5_witness :
    sinkRun ⟨true, false, false⟩ ⟨3, [0xF0, 1, 0xF7]⟩ = some [] ∧
    sinkRun ⟨false, false, false⟩ ⟨3, [0xF0, 1, 0xF7]⟩ =
      some [(3000, [0xF0, 1, 0xF7])] :=
  ⟨(C5_sysex_filter ⟨true, false, false⟩ ⟨3, [0xF0, 1, 0xF7]⟩ [1, 0xF7] rfl).1 rfl,
   (C5_sysex_filter ⟨false, false, false⟩ ⟨3, [0xF0, 1, 0xF7]⟩ [1, 0xF7] rfl).2 rfl⟩

/-- C7: `send` forwards exactly the given bytes, unmodified and once, to
the backend's write primitive; it returns `Ok(())` iff the backend accepts
the write, and `SendError::Other` iff the backend rejects it. -/
theorem C7_send_verbatim (conn : MidiOutputConnection) (backend : BackendWrite)
    (message : List Nat) :
    (conn.send backend message).1 = [message] ∧
    ((conn.send backend message).2 = Except.ok () ↔
      backend.accept message = true) ∧
    ((conn.send backend message).2 =
        Except.error (SendError.other "JavaScript exception") ↔
      backend.accept message = false) := by
  refine ⟨rfl, ?_, ?_⟩ <;>
    cases ha : backend.accept message <;>
      simp [MidiOutputConnection.send, ha]

/-- C9: session construction never fails in this backend: `MidiInput::new`
and `MidiOutput::new` return `Ok` for every client name, so the
`InitError` variant is never produced. -/
theorem C9_new_never_fails (client_name : String) :
    MidiInput.new client_name = Except.ok ⟨Ignore.noFlags⟩ ∧
    MidiOutput.new client_name = Except.ok ⟨⟩ :=
  ⟨rfl, rfl⟩

/-- C3: over any sequence of discovery calls, every already-assigned port
identity keeps its index, `name_lookup` only grows by appending, the port
count never decreases, and a `found_one` on a fresh identity appends it at
the next index. -/
theorem C3_discovery_stable (s : DeviceSet) (ports : List Port) :
    (∀ id i, s.slot_lookup.lookup id = some i →
      (s.found_map ports).slot_lookup.lookup id = some i) ∧
    (∃ t, s.name_lookup ++ t = (s.found_map ports).name_lookup) ∧
    s.len ≤ (s.found_map ports).len ∧
    (∀ d : Port, s.slot_lookup.lookup d.id = Option.none →
      (s.found_one d).name_lookup = s.name_lookup ++ [d] ∧
      (s.found_one d).slot_lookup.lookup d.id = some s.name_lookup.length) := by
  refine ⟨fun id i h => found_map_preserves_lookup ports h,
          found_map_name_lookup_grows s ports,
          found_map_len_mono s ports,
          fun d hd => ?_⟩
  rw [found_one_fresh hd]
  refine ⟨rfl, ?_⟩
  rw [lookup_append_of_none hd]
  simp [List.lookup]

/-- Witness for C3: discovering a fresh port "A" on the empty set assigns
it index 0. -/
theorem C3_witness :
    (DeviceSet.new.found_one ⟨"A", Option.none⟩).name_lookup =
      [⟨"A", Option.none⟩] ∧
    (DeviceSet.new.found_one ⟨"A", Option.none⟩).slot_lookup.lookup "A" = some 0 :=
  (C3_discovery_stable DeviceSet.new []).2.2.2 ⟨"A", Option.none⟩ rfl

/-- C4: a successful `connect` immediately followed by `close` (zero
intervening deliveries) hands back the context supplied at connect time
and a fresh unconnected session carrying the connect-time ignore flags. -/
theorem C4_round_trip {T : Type} (m : MidiInput) (set : DeviceSet) (n : Nat)
    (pn : String) (data : T) (conn : MidiInputConnection T)
    (h : MidiInput.connect m set n pn data = some (Except.ok conn)) :
    conn.close = some ({ ignore_flags := m.ignore_flags }, data) := by
  unfold MidiInput.connect at h
  by_cases hle : set.len ≤ n
  · rw [if_pos hle] at h
    exact absurd (Option.some.inj h) (by simp)
  · rw [if_neg hle] at h
    cases hidx : set.list[n]? with
    | none => rw [hidx] at h; simp at h
    | some input =>
      rw [hidx, Option.map_some'] at h
      obtain rfl : MidiInputConnection.mk m.ignore_flags input true (some data) = conn :=
        Except.ok.inj (Option.some.inj h)
      rfl

/-- Witness for C4 on a one-port set with context 5. -/
theorem C4_witness :
    MidiInputConnection.close
        (MidiInputConnection.mk Ignore.noFlags ⟨"A", Option.none⟩ true (some (5 : Nat))) =
      some (⟨Ignore.noFlags⟩, 5) :=
  C4_round_trip ⟨Ignore.noFlags⟩ (DeviceSet.new.found_one ⟨"A", Option.none⟩) 0 "p" 5
    (MidiInputConnection.mk Ignore.noFlags ⟨"A", Option.none⟩ true (some 5)) rfl

/-- C6: `close` unregisters the delivery sink from the port BEFORE
releasing the context (the unregistered intermediate state still holds the
user data), no event dispatched after unregistration ever invokes the
callback, and `close` itself factors through that unregistered state. -/
theorem C6_close_unregisters_first {T : Type} (conn : MidiInputConnection T) :
    conn.afterUnregister.user_data = conn.user_data ∧
    conn.afterUnregister.handler_registered = false ∧
    (∀ event : MidiMessageEvent, conn.afterUnregister.dispatch event = some []) ∧
    conn.close = conn.afterUnregister.user_data.map
      (fun data => ({ ignore_flags := conn.ignore_flags }, data)) :=
  ⟨rfl, rfl, fun _ => rfl, rfl⟩

/-- C8: every `DeviceSet` reachable from `new` by `found_one` / `found_map`
calls has `slot_lookup` and `name_lookup` of equal length, maps the
identity of the i-th port of `name_lookup` to i, has `len()` equal to the
length of `list()`, and every index passing the bounds check against
`len()` indexes `list()` in range. -/
theorem C8_reachable_invariant (s : DeviceSet) (h : s.Reachable) :
    s.slot_lookup.length = s.name_lookup.length ∧
    (∀ i p, s.name_lookup[i]? = some p → s.slot_lookup.lookup p.id = some i) ∧
    s.len = s.list.length ∧
    (∀ n, n < s.len → (s.list[n]?).isSome = true) := by
  have hinv : s.Inv := by
    induction h with
    | new => exact Inv_new
    | found_one d _ ih => exact Inv_found_one d ih
    | found_map ds _ ih => exact Inv_found_map ds ih
  obtain ⟨hlen, hmap⟩ := hinv
  refine ⟨hlen, hmap, hlen, fun n hn => ?_⟩
  unfold DeviceSet.len at hn
  unfold DeviceSet.list
  rw [List.getElem?_eq_getElem (by omega)]
  rfl

/-- Witness for C8 on the set reached by discovering "A" then "A" again
and "B". -/
theorem C8_witness :
    ((DeviceSet.new.found_map [⟨"A", Option.none⟩, ⟨"A", Option.none⟩,
        ⟨"B", some "Bee"⟩]).len =
      (DeviceSet.new.found_map [⟨"A", Option.none⟩, ⟨"A", Option.none⟩,
        ⟨"B", some "Bee"⟩]).list.length) :=
  (C8_reachable_invariant _
    (DeviceSet.Reachable.found_map _ DeviceSet.Reachable.new)).2.2.1

/-- C10: for an in-range index whose port has no display name, `port_name`
on both the input and the output side returns the port's backend identity
string. -/
theorem C10_port_name_fallback (set : DeviceSet) (n : Nat) (p : Port)
    (hr : n < set.len) (hidx : set.list[n]? = some p)
    (hname : p.name = Option.none) :
    MidiInput.port_name set n = some (Except.ok p.id) ∧
    MidiOutput.port_name set n = some (Except.ok p.id) := by
  constructor
  · unfold MidiInput.port_name
    rw [if_neg (Nat.not_le_of_lt hr), hidx, Option.map_some', hname]
    rfl
  · unfold MidiOutput.port_name
    rw [if_neg (Nat.not_le_of_lt hr), hidx, Option.map_some', hname]
    rfl

/-- Witness for C10 on a one-port set whose port "A" has no display
name. -/
theorem C10_witness :
    MidiInput.port_name (DeviceSet.new.found_one ⟨"A", Option.none⟩) 0 =
      some (Except.ok "A") ∧
    MidiOutput.port_name (DeviceSet.new.found_one ⟨"A", Option.none⟩) 0 =
      some (Except.ok "A") :=
  C10_port_name_fallback (DeviceSet.new.found_one ⟨"A", Option.none⟩) 0
    ⟨"A", Option.none⟩ (by decide) (by decide) rfl

end Midir
